import Mathlib

/-!
Formal model of the MOBA-DEMO2 front-end (src/App.tsx, src/components/GameHUD.tsx).

The React component state and its event handlers are shallowly embedded as a
state type `AppState` and pure transition functions.  Asynchronous handlers are
modelled as functions returning the new state, a list of externally observable
events (external calls, sleeps, timer scheduling) and an `Except` value that
models promise resolution/rejection.  The external `getAIResponse` wrapper
(src/services/aiService.ts, not present under src/) is modelled as an oracle
parameter `Env.oracle`; wall-clock ids/timestamps produced by `Math.random`,
`Date.now` and `toLocaleTimeString` are modelled as metadata supplies
`Env.logMeta` / `Env.msgMeta`.  Timer callbacks (`setTimeout`/`setInterval`
bodies) are modelled as separate transition functions which fire as their own
steps.  JS string case mapping is modelled at ASCII precision via
`Char.toLower`.
-/

namespace MobaDemo

/-- The `ProductMode` enumeration from src/types (the five interaction modes). -/
inductive ProductMode where
  | GUIDED_QUERY
  | TEXT_CHAT
  | SINGLE_TURN_VOICE
  | MULTI_TURN_VOICE
  | FULL_DUPLEX
deriving DecidableEq, Repr, Inhabited

/-- TS `ProductMode[m]`: the enum member's name, used in the mode-change log. -/
def modeName : ProductMode → String
  | .GUIDED_QUERY => "GUIDED_QUERY"
  | .TEXT_CHAT => "TEXT_CHAT"
  | .SINGLE_TURN_VOICE => "SINGLE_TURN_VOICE"
  | .MULTI_TURN_VOICE => "MULTI_TURN_VOICE"
  | .FULL_DUPLEX => "FULL_DUPLEX"

/-- The `GameState` enumeration from src/types. -/
inductive GameState where
  | NORMAL
  | DEAD
  | SHOPPING
  | OBJECTIVE_SPAWN
deriving DecidableEq, Repr, Inhabited

/-- Role tags used on `PipelineLog` entries in src/App.tsx. -/
inductive PipelineRole where
  | SYSTEM
  | ASR
  | VAD
  | NLP
  | LLM
  | TTS
  | USER_ACTION
deriving DecidableEq, Repr, Inhabited

/-- A pipeline log entry (id, role, content, timestamp), as in src/types. -/
structure PipelineLog where
  id : String
  role : PipelineRole
  content : String
  timestamp : String
deriving DecidableEq, Repr, Inhabited

/-- Chat message sender tag. -/
inductive Sender where
  | player
  | ai
  | system
deriving DecidableEq, Repr, Inhabited

/-- A chat message (id, sender, text, timestamp), as in src/types. -/
structure ChatMessage where
  id : String
  sender : Sender
  text : String
  timestamp : String
deriving DecidableEq, Repr, Inhabited

/-- The `aiState` record of src/App.tsx. The countdown `timer` is a JS number,
modelled as `Int`. -/
structure AiState where
  isListening : Bool
  isSpeaking : Bool
  response : Option String
  timer : Int
  isThinking : Bool
deriving DecidableEq, Repr, Inhabited

/-- A scripted full-duplex dialogue scenario, with the four string fields read
from it in the duplex effect of src/App.tsx (`scenario.trigger`, `scenario.ai`,
`scenario.user`, `scenario.reply`). -/
structure Scenario where
  trigger : String
  ai : String
  user : String
  reply : String
deriving DecidableEq, Repr, Inhabited

/-- The whole in-memory state of the `App` component: the `useState` hooks plus
the mutable refs.  `speechTimeoutPending` models whether `speechTimeoutRef`
holds a scheduled, unfired timeout; `timerIntervalActive` models whether
`timerIntervalRef` holds a running interval. -/
structure AppState where
  currentMode : ProductMode
  gameState : GameState
  messages : List ChatMessage
  pipelineLogs : List PipelineLog
  isDuplexActive : Bool
  aiState : AiState
  speechTimeoutPending : Bool
  timerIntervalActive : Bool
  duplexScenarioIdx : Nat
deriving DecidableEq, Repr, Inhabited

/-- Externally observable events of a handler run. -/
inductive Event where
  | extCall (query : String) (gs : GameState)
  | sleep (ms : Nat)
  | setTimeoutEv (ms : Nat)
  | clearTimeoutEv
deriving DecidableEq, Repr, Inhabited

/-- Environment: the external `getAIResponse` wrapper as an oracle (success or
rejection), the measured LLM latency, and supplies of (id, timestamp) metadata
for log entries and chat messages. -/
structure Env where
  oracle : String → GameState → Except String String
  llmDuration : Nat
  logMeta : Nat → String × String
  msgMeta : Nat → String × String

/-- Shift the log-metadata supply: used when a handler appends `n` logs itself
before delegating to a nested handler. -/
def shiftLog (env : Env) (n : Nat) : Env :=
  { env with logMeta := fun k => env.logMeta (k + n) }

/-- Shift the message-metadata supply. -/
def shiftMsg (env : Env) (n : Nat) : Env :=
  { env with msgMeta := fun k => env.msgMeta (k + n) }

/-- `INITIAL_CHAT_HISTORY` from src constants. -/
def INITIAL_CHAT_HISTORY : List ChatMessage :=
  [{ id := "1", sender := .system,
     text := "欢迎来到召唤师峡谷！AI实时语音助手已就绪。", timestamp := "00:00" }]

/-- The initial `aiState` value of src/App.tsx. -/
def initialAiState : AiState :=
  { isListening := false, isSpeaking := false, response := none,
    timer := 0, isThinking := false }

/-- The initial component state of src/App.tsx. -/
def initState : AppState :=
  { currentMode := .GUIDED_QUERY, gameState := .NORMAL,
    messages := INITIAL_CHAT_HISTORY, pipelineLogs := [],
    isDuplexActive := false, aiState := initialAiState,
    speechTimeoutPending := false, timerIntervalActive := false,
    duplexScenarioIdx := 0 }

/-- `MOCK_GUIDED_QUERIES` from src constants: canned prompt suggestions per
game state (the only UI use of the game-state enumeration). -/
def MOCK_GUIDED_QUERIES : GameState → List String
  | .NORMAL => ["现在该去哪发育？", "队友在干嘛", "帮我分析对线策略"]
  | .DEAD => ["复盘死亡原因", "查看伤害来源", "下一波团战怎么打"]
  | .SHOPPING => ["比较1100金币的两种小件策略", "对面刺客肥了出什么", "推荐核心三件套"]
  | .OBJECTIVE_SPAWN => ["小龙1分钟刷新规划任务", "对面打野大概率在哪", "这波团战站位建议"]

/-- `addPipelineLog` of src/App.tsx:
`setPipelineLogs(prev => [...prev.slice(-40), newEntry])`.
JS `slice(-40)` keeps the last `min(40, length)` entries, i.e. `drop (length - 40)`. -/
def addPipelineLog (role : PipelineRole) (content : String) (m : String × String)
    (st : AppState) : AppState :=
  { st with pipelineLogs :=
      st.pipelineLogs.drop (st.pipelineLogs.length - 40) ++
        [{ id := m.1, role := role, content := content, timestamp := m.2 }] }

/-- `addChatMessage` of src/App.tsx: plain append. -/
def addChatMessage (sender : Sender) (text : String) (m : String × String)
    (st : AppState) : AppState :=
  { st with messages :=
      st.messages ++ [{ id := m.1, sender := sender, text := text, timestamp := m.2 }] }

/-- `runPipelineFlow` of src/App.tsx: a straight line of log inserts and fixed
sleeps with the single `getAIResponse` call in the middle.  A rejected call
propagates (the steps after it do not run). -/
def runPipelineFlow (env : Env) (query : String) (st : AppState) :
    AppState × List Event × Except String String :=
  let st := addPipelineLog .ASR "捕捉音频流中..." (env.logMeta 0) st
  let st := addPipelineLog .ASR ("识别结果 [QUERY]: \"" ++ query ++ "\"") (env.logMeta 1) st
  let st := addPipelineLog .VAD "VAD状态: 语音结束 (Speech Stop)" (env.logMeta 2) st
  let st := addPipelineLog .NLP "语义提取: 关键词 [打野, 入侵, 策略]" (env.logMeta 3) st
  let st := addPipelineLog .LLM "Gemini 云端决策中..." (env.logMeta 4) st
  let evs : List Event :=
    [.sleep 800, .sleep 600, .sleep 400, .sleep 800, .extCall query st.gameState]
  match env.oracle query st.gameState with
  | .error e => (st, evs, .error e)
  | .ok result =>
    let evs := evs ++ (if env.llmDuration < 1200 then [Event.sleep (1200 - env.llmDuration)] else [])
    let st := addPipelineLog .LLM ("结果下发 [AI_TEXT]: \"" ++ result ++ "\"") (env.logMeta 5) st
    let st := addPipelineLog .TTS "流式 TTS 合成 [Voice: Hextech-Male]..." (env.logMeta 6) st
    let st := addPipelineLog .TTS "音频播放开始" (env.logMeta 7) st
    (st, evs ++ [.sleep 600, .sleep 1000], .ok result)

/-- `handleAIInteraction` of src/App.tsx.  `isAuto` is accepted and unused, as
in the source. -/
def handleAIInteraction (env : Env) (query : String) (isAuto : Bool)
    (st : AppState) : AppState × List Event × Except String Unit :=
  if st.currentMode = .TEXT_CHAT then
    match env.oracle query st.gameState with
    | .error e => (st, [.extCall query st.gameState], .error e)
    | .ok response =>
      (addChatMessage .ai response (env.msgMeta 0) st,
       [.extCall query st.gameState], .ok ())
  else if st.currentMode = .SINGLE_TURN_VOICE ∨ st.currentMode = .MULTI_TURN_VOICE ∨
      st.currentMode = .FULL_DUPLEX then
    match runPipelineFlow env query st with
    | (st1, evs, .error e) => (st1, evs, .error e)
    | (st1, evs, .ok finalResponse) =>
      let st2 := { st1 with
        aiState := { st1.aiState with
          isThinking := false, response := some finalResponse, isSpeaking := true } }
      ({ st2 with speechTimeoutPending := true }, evs ++ [.setTimeoutEv 5000], .ok ())
  else
    let st1 := { st with aiState :=
      { st.aiState with isSpeaking := true, isThinking := true } }
    match env.oracle query st1.gameState with
    | .error e => (st1, [.extCall query st.gameState], .error e)
    | .ok finalResponse =>
      let st2 := { st1 with
        aiState := { st1.aiState with
          isThinking := false, response := some finalResponse, isSpeaking := true } }
      ({ st2 with speechTimeoutPending := true },
       [.extCall query st.gameState, .setTimeoutEv 5000], .ok ())

/-- The `playDuration` timeout callback scheduled by `handleAIInteraction`.
`isVoice` is the value of `isVoiceMode` captured when the timeout was set. -/
def speechTimeoutFires (env : Env) (isVoice : Bool) (st : AppState) : AppState :=
  let st := if isVoice then addPipelineLog .TTS "播放链路释放" (env.logMeta 0) st else st
  { st with
    aiState := { st.aiState with isSpeaking := false, response := none }
    speechTimeoutPending := false }

/-- ASCII lowering of a string's characters (models JS `toLowerCase` at ASCII
precision). -/
def lowerChars (s : String) : List Char := s.data.map Char.toLower

/-- `text.toLowerCase().includes('@ai')` of src/App.tsx `handleSendMessage`. -/
def containsAtAI (text : String) : Bool :=
  decide (['@', 'a', 'i'] <:+: lowerChars text)

/-- `text.replace(/@ai/gi, '')`: left-to-right removal of every
case-insensitive occurrence of `@ai`. -/
def stripAtAI : List Char → List Char
  | a :: b :: c :: rest =>
    if a.toLower = '@' ∧ b.toLower = 'a' ∧ c.toLower = 'i' then stripAtAI rest
    else a :: stripAtAI (b :: c :: rest)
  | l => l

/-- JS `String.prototype.trim` at ASCII-whitespace precision: drop whitespace
from both ends. -/
def trimChars (cs : List Char) : List Char :=
  ((cs.dropWhile Char.isWhitespace).reverse.dropWhile Char.isWhitespace).reverse

/-- The query forwarded to the AI from an `@ai` chat message:
`text.replace(/@ai/gi, '').trim() || "在的。"`. -/
def atAIQuery (text : String) : String :=
  let stripped := String.mk (trimChars (stripAtAI text.data))
  if stripped = "" then "在的。" else stripped

/-- `handleSendMessage` of src/App.tsx. -/
def handleSendMessage (env : Env) (text : String) (st : AppState) :
    AppState × List Event × Except String Unit :=
  if st.currentMode = .TEXT_CHAT then
    let st := addChatMessage .player text (env.msgMeta 0) st
    if containsAtAI text then
      handleAIInteraction (shiftMsg env 1) (atAIQuery text) false st
    else (st, [], .ok ())
  else
    handleAIInteraction env text false st

/-- `handleVoiceTrigger` of src/App.tsx (push-to-talk / 30s-window toggle). -/
def handleVoiceTrigger (env : Env) (active : Bool) (st : AppState) :
    AppState × List Event × Except String Unit :=
  if st.currentMode = .SINGLE_TURN_VOICE then
    if active then
      let st := { st with aiState := { st.aiState with isListening := true } }
      (addPipelineLog .SYSTEM "用户按下录音 [Start Capture]" (env.logMeta 0) st, [], .ok ())
    else
      let st := { st with aiState := { st.aiState with isListening := false } }
      let st := addPipelineLog .SYSTEM "用户松开录音 [Trigger AI Inference]" (env.logMeta 0) st
      handleAIInteraction (shiftLog env 1) "这波小龙团我该怎么切入？" false st
  else if st.currentMode = .MULTI_TURN_VOICE then
    if st.aiState.isListening then
      let st := addPipelineLog .USER_ACTION "多轮窗口内捕捉到后续追问" (env.logMeta 0) st
      handleAIInteraction (shiftLog env 1) "对面辅助不见了，是不是去排眼了？" false st
    else
      let st := { st with aiState := { st.aiState with isListening := true } }
      (addPipelineLog .SYSTEM "开启 30s 全力监听模式" (env.logMeta 0) st, [], .ok ())
  else (st, [], .ok ())

/-- `toggleDuplex` of src/App.tsx. -/
def toggleDuplex (env : Env) (st : AppState) : AppState :=
  let active := ! st.isDuplexActive
  let st := { st with isDuplexActive := active }
  if active then
    let st := addPipelineLog .SYSTEM "全双工实时陪伴链路已连接 [Latency < 150ms]" (env.logMeta 0) st
    addPipelineLog .ASR "实时语音特征监听启动..." (env.logMeta 1) st
  else
    let st := addPipelineLog .SYSTEM "链路正常断开" (env.logMeta 0) st
    { st with aiState := { st.aiState with isSpeaking := false, response := none } }

/-- `simulateInterrupt` of src/App.tsx (the barge-in handler).  It returns the
new state and the observable events; the 1000ms follow-up it schedules is
`interruptFollowup` below. -/
def simulateInterrupt (env : Env) (st : AppState) : AppState × List Event :=
  if st.isDuplexActive = true ∧ st.aiState.isSpeaking = true then
    let evs : List Event := if st.speechTimeoutPending then [.clearTimeoutEv] else []
    let st := { st with speechTimeoutPending := false }
    let st := addPipelineLog .USER_ACTION "!!! 用户实时抢占打断 (Barge-in Detected) !!!" (env.logMeta 0) st
    let st := addPipelineLog .SYSTEM "立即执行中断协议：停止当前音频播报" (env.logMeta 1) st
    let st := { st with aiState := { st.aiState with isSpeaking := false, response := none } }
    (st, evs ++ [.setTimeoutEv 1000])
  else (st, [])

/-- The 1000ms callback scheduled by `simulateInterrupt`. -/
def interruptFollowup (env : Env) (st : AppState) :
    AppState × List Event × Except String Unit :=
  let st := addPipelineLog .ASR "抢断话术识别: \"别说了，先看大龙，对面开开了！\"" (env.logMeta 0) st
  handleAIInteraction (shiftLog env 1) "对面在偷大龙吗？" false st

/-- The body of the 30s-window effect when it starts (mode is multi-turn voice
and `isListening` just became true): sets `timer` to 30 and starts the
interval. -/
def listenStart (st : AppState) : AppState :=
  { st with
    aiState := { st.aiState with timer := 30 }
    timerIntervalActive := true }

/-- One tick of the 30s-window interval of src/App.tsx: when `timer <= 1` the
interval is cleared, a SYSTEM log is appended and the window closes; otherwise
the timer decreases by one. -/
def listenTick (env : Env) (st : AppState) : AppState :=
  if st.aiState.timer ≤ 1 then
    let st := addPipelineLog .SYSTEM "30s 聆听窗已超时关闭" (env.logMeta 0) st
    { st with
      aiState := { st.aiState with isListening := false, timer := 0 }
      timerIntervalActive := false }
  else
    { st with aiState := { st.aiState with timer := st.aiState.timer - 1 } }

/-- The scenario selection of the duplex effect:
`DUPLEX_SCENARIOS[duplexScenarioIdxRef.current % DUPLEX_SCENARIOS.length]`. -/
def selectedScenario (scenarios : List Scenario) (idx : Nat) : Scenario :=
  scenarios.getD (idx % scenarios.length) default

/-- One `runScenario` pass of the full-duplex effect of src/App.tsx.  The
contents of `DUPLEX_SCENARIOS` live in src/constants, which is not under src/;
the list is therefore an abstract parameter here.  Each pass reads the
scenario at the current index modulo the list length, increments the index,
plays the scripted exchange and reschedules itself after 8000ms. -/
def runScenario (env : Env) (scenarios : List Scenario) (st : AppState) :
    AppState × List Event :=
  let scenario := selectedScenario scenarios st.duplexScenarioIdx
  let st := { st with duplexScenarioIdx := st.duplexScenarioIdx + 1 }
  let st := addPipelineLog .SYSTEM ("[主动触发] 场景探测: " ++ scenario.trigger) (env.logMeta 0) st
  let st := addPipelineLog .LLM ("生成主动话术: \"" ++ scenario.ai ++ "\"") (env.logMeta 1) st
  let st := { st with aiState := { st.aiState with isSpeaking := true, response := some scenario.ai } }
  let st := { st with aiState := { st.aiState with isSpeaking := false, response := none } }
  let st := addPipelineLog .ASR ("实时转义用户回复: \"" ++ scenario.user ++ "\"") (env.logMeta 2) st
  let st := addPipelineLog .LLM ("全双工快速响应: \"" ++ scenario.reply ++ "\"") (env.logMeta 3) st
  let st := { st with aiState := { st.aiState with isSpeaking := true, response := some scenario.reply } }
  let st := { st with aiState := { st.aiState with isSpeaking := false, response := none } }
  (st, [.sleep 1000, .sleep 4000, .sleep 1500, .sleep 1000, .sleep 4000, .setTimeoutEv 8000])

/-- The `onModeChange` handler passed to `ControlPanel` in src/App.tsx. -/
def onModeChange (m : ProductMode) (st : AppState) : AppState :=
  { st with
    currentMode := m
    pipelineLogs := [{
      id := "init"
      role := .SYSTEM
      content := "交互形态切换: " ++ modeName m
      timestamp := "--:--:--" }]
    aiState := {
      isListening := false
      isSpeaking := false
      response := none
      timer := 0
      isThinking := false }
    isDuplexActive := false
    speechTimeoutPending := false }

/-- The `(query, gameState)` arguments of the external calls in an event
trace. -/
def extCalls (evs : List Event) : List (String × GameState) :=
  evs.filterMap fun e => match e with
    | .extCall q g => some (q, g)
    | _ => none

/-- Only the query texts of the external calls in an event trace. -/
def extQueries (evs : List Event) : List String :=
  evs.filterMap fun e => match e with
    | .extCall q _ => some q
    | _ => none

/-- One atomic transition of the application: a user interaction, a timer
callback, or a game-state change from the control panel. -/
inductive Step : AppState → AppState → Prop where
  | modeChange (m : ProductMode) (st : AppState) : Step st (onModeChange m st)
  | gameStateChange (g : GameState) (st : AppState) : Step st { st with gameState := g }
  | sendMessage (env : Env) (text : String) (st : AppState) :
      Step st (handleSendMessage env text st).1
  | interaction (env : Env) (q : String) (b : Bool) (st : AppState) :
      Step st (handleAIInteraction env q b st).1
  | voiceTrigger (env : Env) (active : Bool) (st : AppState) :
      Step st (handleVoiceTrigger env active st).1
  | duplexToggle (env : Env) (st : AppState) : Step st (toggleDuplex env st)
  | interrupt (env : Env) (st : AppState) : Step st (simulateInterrupt env st).1
  | interruptCb (env : Env) (st : AppState) : Step st (interruptFollowup env st).1
  | speechCb (env : Env) (b : Bool) (st : AppState) :
      Step st (speechTimeoutFires env b st)
  | windowStart (st : AppState) : Step st (listenStart st)
  | windowTick (env : Env) (st : AppState) : Step st (listenTick env st)
  | scenarioRun (env : Env) (scenarios : List Scenario) (st : AppState) :
      Step st (runScenario env scenarios st).1

/-- A state the application can reach from its initial state. -/
def Reachable (st : AppState) : Prop :=
  Relation.ReflTransGen Step initState st

/-! ## Basic projection lemmas -/

@[simp] theorem addPipelineLog_gameState (r : PipelineRole) (c : String)
    (m : String × String) (st : AppState) :
    (addPipelineLog r c m st).gameState = st.gameState := rfl

@[simp] theorem addPipelineLog_messages (r : PipelineRole) (c : String)
    (m : String × String) (st : AppState) :
    (addPipelineLog r c m st).messages = st.messages := rfl

@[simp] theorem addPipelineLog_aiState (r : PipelineRole) (c : String)
    (m : String × String) (st : AppState) :
    (addPipelineLog r c m st).aiState = st.aiState := rfl

@[simp] theorem addPipelineLog_currentMode (r : PipelineRole) (c : String)
    (m : String × String) (st : AppState) :
    (addPipelineLog r c m st).currentMode = st.currentMode := rfl

@[simp] theorem addPipelineLog_isDuplexActive (r : PipelineRole) (c : String)
    (m : String × String) (st : AppState) :
    (addPipelineLog r c m st).isDuplexActive = st.isDuplexActive := rfl

@[simp] theorem addPipelineLog_speechTimeoutPending (r : PipelineRole) (c : String)
    (m : String × String) (st : AppState) :
    (addPipelineLog r c m st).speechTimeoutPending = st.speechTimeoutPending := rfl

@[simp] theorem addPipelineLog_timerIntervalActive (r : PipelineRole) (c : String)
    (m : String × String) (st : AppState) :
    (addPipelineLog r c m st).timerIntervalActive = st.timerIntervalActive := rfl

@[simp] theorem addPipelineLog_duplexScenarioIdx (r : PipelineRole) (c : String)
    (m : String × String) (st : AppState) :
    (addPipelineLog r c m st).duplexScenarioIdx = st.duplexScenarioIdx := rfl

@[simp] theorem addChatMessage_gameState (s : Sender) (t : String)
    (m : String × String) (st : AppState) :
    (addChatMessage s t m st).gameState = st.gameState := rfl

@[simp] theorem addChatMessage_pipelineLogs (s : Sender) (t : String)
    (m : String × String) (st : AppState) :
    (addChatMessage s t m st).pipelineLogs = st.pipelineLogs := rfl

@[simp] theorem addChatMessage_aiState (s : Sender) (t : String)
    (m : String × String) (st : AppState) :
    (addChatMessage s t m st).aiState = st.aiState := rfl

@[simp] theorem addChatMessage_currentMode (s : Sender) (t : String)
    (m : String × String) (st : AppState) :
    (addChatMessage s t m st).currentMode = st.currentMode := rfl

@[simp] theorem addChatMessage_messages (s : Sender) (t : String)
    (m : String × String) (st : AppState) :
    (addChatMessage s t m st).messages =
      st.messages ++ [{ id := m.1, sender := s, text := t, timestamp := m.2 }] := rfl

/-! ## C1: the pipeline log cap -/

/-- C1 (amended): after any call to `addPipelineLog`, the pipeline log list
has length at most 41: the call keeps at most the last 40 previously stored
entries — a suffix of the previous list, in insertion order — and appends the
new entry at the end. -/
theorem addPipelineLog_cap (r : PipelineRole) (c : String) (m : String × String)
    (st : AppState) :
    (addPipelineLog r c m st).pipelineLogs.length ≤ 41 ∧
    ∃ s, s <:+ st.pipelineLogs ∧ s.length ≤ 40 ∧
      (addPipelineLog r c m st).pipelineLogs =
        s ++ [{ id := m.1, role := r, content := c, timestamp := m.2 }] := by
  refine ⟨?_, st.pipelineLogs.drop (st.pipelineLogs.length - 40),
    List.drop_suffix _ _, ?_, rfl⟩
  · simp [addPipelineLog]
    omega
  · simp
    omega

/-- C1 counterexample: starting from a state already holding 40 log entries,
one more `addPipelineLog` yields 41 entries, refuting "length at most 40". -/
theorem addPipelineLog_cap40_counterexample :
    ¬ ((addPipelineLog .SYSTEM "y" ("i", "t")
        { initState with
          pipelineLogs := List.replicate 40
            { id := "x", role := .SYSTEM, content := "c", timestamp := "t" } }).pipelineLogs.length ≤ 40) := by
  decide

/-! ## C8: the mode-change reset -/

/-- C8: for every mode `m`, the mode-change handler sets the current mode to
`m`, replaces the pipeline log list with exactly one SYSTEM entry, resets
`aiState` to its initial value, deactivates duplex mode, clears the pending
speech timeout, and leaves the chat message list (and the game state)
unchanged. -/
theorem onModeChange_reset (m : ProductMode) (st : AppState) :
    (onModeChange m st).currentMode = m ∧
    (∃ l, (onModeChange m st).pipelineLogs = [l] ∧ l.role = .SYSTEM) ∧
    (onModeChange m st).aiState =
      { isListening := false, isSpeaking := false, response := none,
        timer := 0, isThinking := false } ∧
    (onModeChange m st).isDuplexActive = false ∧
    (onModeChange m st).speechTimeoutPending = false ∧
    (onModeChange m st).messages = st.messages ∧
    (onModeChange m st).gameState = st.gameState := by
  refine ⟨rfl, ⟨_, rfl, rfl⟩, rfl, rfl, rfl, rfl, rfl⟩

/-! ## C6: text-chat interaction -/

/-- C6: in text-chat mode, a successful interaction makes exactly one external
call with the query text and the current game state, appends exactly one chat
message with sender `ai` carrying the returned reply, and changes nothing
else (no pipeline logs, no `aiState` change). -/
theorem handleAIInteraction_textChat (env : Env) (q : String) (b : Bool)
    (st : AppState) (resp : String)
    (hmode : st.currentMode = .TEXT_CHAT)
    (hok : env.oracle q st.gameState = .ok resp) :
    handleAIInteraction env q b st =
      ({ st with messages := st.messages ++
          [{ id := (env.msgMeta 0).1, sender := .ai, text := resp,
             timestamp := (env.msgMeta 0).2 }] },
       [.extCall q st.gameState], .ok ()) := by
  simp [handleAIInteraction, hmode, hok, addChatMessage]

/-! ## Pipeline-flow lemmas -/

@[simp] theorem extCalls_nil : extCalls [] = [] := rfl

@[simp] theorem extCalls_append (a b : List Event) :
    extCalls (a ++ b) = extCalls a ++ extCalls b := by
  simp [extCalls]

theorem runPipelineFlow_proj (env : Env) (q : String) (st : AppState) :
    (runPipelineFlow env q st).1.messages = st.messages ∧
    (runPipelineFlow env q st).1.aiState = st.aiState ∧
    (runPipelineFlow env q st).1.gameState = st.gameState ∧
    (runPipelineFlow env q st).1.currentMode = st.currentMode ∧
    (runPipelineFlow env q st).1.isDuplexActive = st.isDuplexActive ∧
    (runPipelineFlow env q st).1.speechTimeoutPending = st.speechTimeoutPending ∧
    (runPipelineFlow env q st).1.timerIntervalActive = st.timerIntervalActive ∧
    (runPipelineFlow env q st).1.duplexScenarioIdx = st.duplexScenarioIdx := by
  unfold runPipelineFlow
  rcases h : env.oracle q st.gameState with e | r <;> simp [h]

theorem runPipelineFlow_result (env : Env) (q : String) (st : AppState) :
    (runPipelineFlow env q st).2.2 = env.oracle q st.gameState := by
  unfold runPipelineFlow
  rcases h : env.oracle q st.gameState with e | r <;> simp [h]

theorem extCalls_runPipelineFlow (env : Env) (q : String) (st : AppState) :
    extCalls (runPipelineFlow env q st).2.1 = [(q, st.gameState)] := by
  unfold runPipelineFlow
  rcases h : env.oracle q st.gameState with e | r <;> simp [h, extCalls]

theorem extCalls_handleAIInteraction (env : Env) (q : String) (b : Bool)
    (st : AppState) :
    extCalls (handleAIInteraction env q b st).2.1 = [(q, st.gameState)] := by
  have hp := extCalls_runPipelineFlow env q st
  unfold handleAIInteraction
  split
  · rcases h : env.oracle q st.gameState with e | r <;> simp [h, extCalls]
  · split
    · rcases hr : runPipelineFlow env q st with ⟨st1, evs, res⟩
      rw [hr] at hp
      cases res <;> simp_all [extCalls]
    · rcases h : env.oracle q st.gameState with e | r <;> simp [h, extCalls]

/-! ## C4: rejection of the external call propagates -/

/-- C4: when the external call rejects, `handleAIInteraction` propagates the
rejection in every interaction mode: the returned promise is the same error,
no fallback chat message is appended, and exactly one external call was
attempted (no retry). -/
theorem handleAIInteraction_error_propagates (env : Env) (q : String) (b : Bool)
    (st : AppState) (e : String)
    (herr : env.oracle q st.gameState = .error e) :
    (handleAIInteraction env q b st).2.2 = .error e ∧
    (handleAIInteraction env q b st).1.messages = st.messages ∧
    extCalls (handleAIInteraction env q b st).2.1 = [(q, st.gameState)] := by
  have hres := runPipelineFlow_result env q st
  have hmsg := (runPipelineFlow_proj env q st).1
  refine ⟨?_, ?_, extCalls_handleAIInteraction env q b st⟩ <;>
    · unfold handleAIInteraction
      split
      · simp [herr]
      · split
        · rcases hr : runPipelineFlow env q st with ⟨st1, evs, res⟩
          rw [hr] at hres hmsg
          rw [herr] at hres
          simp at hres hmsg
          cases res <;> simp_all
        · simp [herr]

/-- A concrete always-rejecting environment. -/
def errEnv : Env :=
  ⟨fun _ _ => .error "boom", 0, fun _ => ("", ""), fun _ => ("", "")⟩

/-- Witness for C4 at a concrete rejecting environment. -/
theorem handleAIInteraction_error_propagates_witness :
    (handleAIInteraction errEnv "q" false initState).2.2 = .error "boom" ∧
    (handleAIInteraction errEnv "q" false initState).1.messages =
      initState.messages ∧
    extCalls (handleAIInteraction errEnv "q" false initState).2.1 =
      [("q", initState.gameState)] :=
  handleAIInteraction_error_propagates errEnv "q" false initState "boom" rfl

/-! ## C3: the pipeline flow is a fixed linear sequence -/

/-- A pending log insertion (role, content, id/timestamp metadata). -/
structure LogSpec where
  role : PipelineRole
  content : String
  meta : String × String

/-- The log entry a `LogSpec` produces. -/
def LogSpec.entry (a : LogSpec) : PipelineLog :=
  { id := a.meta.1, role := a.role, content := a.content, timestamp := a.meta.2 }

/-- Apply a list of `addPipelineLog` insertions in order. -/
def applyLogAdds (adds : List LogSpec) (st : AppState) : AppState :=
  adds.foldl (fun s a => addPipelineLog a.role a.content a.meta s) st

/-- Applying at most 41 log insertions leaves a suffix of the previous log list
followed by the new entries in insertion order. -/
theorem applyLogAdds_shape (adds : List LogSpec) (st : AppState)
    (h : adds.length ≤ 41) :
    ∃ s, s <:+ st.pipelineLogs ∧
      (applyLogAdds adds st).pipelineLogs = s ++ adds.map LogSpec.entry := by
  induction adds using List.reverseRecOn with
  | nil => exact ⟨st.pipelineLogs, List.suffix_refl _, by simp [applyLogAdds]⟩
  | append_singleton as a ih =>
    have hlen : as.length ≤ 40 := by
      simp at h
      omega
    obtain ⟨s, hs, heq⟩ := ih (by omega)
    have hfold : applyLogAdds (as ++ [a]) st =
        addPipelineLog a.role a.content a.meta (applyLogAdds as st) := by
      simp [applyLogAdds]
    refine ⟨s.drop ((s.length + as.length) - 40),
      (List.drop_suffix _ _).trans hs, ?_⟩
    rw [hfold]
    simp only [addPipelineLog, heq]
    have hmap : (as.map LogSpec.entry).length = as.length := by simp
    rw [List.length_append, hmap, List.drop_append_of_le_length (by omega)]
    simp [LogSpec.entry]

/-- The eight log insertions `runPipelineFlow` performs on a successful call,
in source order. -/
def flowLogSpecs (env : Env) (q result : String) : List LogSpec :=
  [⟨.ASR, "捕捉音频流中...", env.logMeta 0⟩,
   ⟨.ASR, "识别结果 [QUERY]: \"" ++ q ++ "\"", env.logMeta 1⟩,
   ⟨.VAD, "VAD状态: 语音结束 (Speech Stop)", env.logMeta 2⟩,
   ⟨.NLP, "语义提取: 关键词 [打野, 入侵, 策略]", env.logMeta 3⟩,
   ⟨.LLM, "Gemini 云端决策中...", env.logMeta 4⟩,
   ⟨.LLM, "结果下发 [AI_TEXT]: \"" ++ result ++ "\"", env.logMeta 5⟩,
   ⟨.TTS, "流式 TTS 合成 [Voice: Hextech-Male]...", env.logMeta 6⟩,
   ⟨.TTS, "音频播放开始", env.logMeta 7⟩]

theorem runPipelineFlow_logs_ok (env : Env) (q : String) (st : AppState)
    (result : String) (hok : env.oracle q st.gameState = .ok result) :
    (runPipelineFlow env q st).1.pipelineLogs =
      (applyLogAdds (flowLogSpecs env q result) st).pipelineLogs := by
  unfold runPipelineFlow
  simp [hok, applyLogAdds, flowLogSpecs]

/-- C3: `runPipelineFlow` makes exactly one external call, with the query and
the current game state; its trace starts with the four fixed delays and then
the call; it performs no cancellation; it returns exactly what the call
returned (propagating a rejection unchanged); it changes no chat messages and
no `aiState`; and on success it appends log entries in the fixed role order
ASR, ASR, VAD, NLP, LLM, LLM, TTS, TTS — independent of the query. -/
theorem runPipelineFlow_linear (env : Env) (q : String) (st : AppState) :
    extCalls (runPipelineFlow env q st).2.1 = [(q, st.gameState)] ∧
    (runPipelineFlow env q st).2.2 = env.oracle q st.gameState ∧
    (runPipelineFlow env q st).1.messages = st.messages ∧
    (runPipelineFlow env q st).1.aiState = st.aiState ∧
    Event.clearTimeoutEv ∉ (runPipelineFlow env q st).2.1 ∧
    (runPipelineFlow env q st).2.1.take 5 =
      [.sleep 800, .sleep 600, .sleep 400, .sleep 800, .extCall q st.gameState] ∧
    ∀ result, env.oracle q st.gameState = .ok result →
      ∃ s, s <:+ st.pipelineLogs ∧
        (runPipelineFlow env q st).1.pipelineLogs.map PipelineLog.role =
          s.map PipelineLog.role ++
            [.ASR, .ASR, .VAD, .NLP, .LLM, .LLM, .TTS, .TTS] := by
  refine ⟨extCalls_runPipelineFlow env q st, runPipelineFlow_result env q st,
    (runPipelineFlow_proj env q st).1, (runPipelineFlow_proj env q st).2.1,
    ?_, ?_, ?_⟩
  · unfold runPipelineFlow
    rcases h : env.oracle q st.gameState with e | r <;> simp [h]
  · unfold runPipelineFlow
    rcases h : env.oracle q st.gameState with e | r <;> simp [h]
  · intro result hok
    obtain ⟨s, hs, heq⟩ :=
      applyLogAdds_shape (flowLogSpecs env q result) st (by simp [flowLogSpecs])
    refine ⟨s, hs, ?_⟩
    rw [runPipelineFlow_logs_ok env q st result hok, heq]
    simp [flowLogSpecs, LogSpec.entry]

/-- A concrete always-succeeding environment. -/
def okEnv : Env :=
  ⟨fun _ _ => .ok "R", 0, fun _ => ("", ""), fun _ => ("", "")⟩

/-- Witness for C3: the pipeline flow at a concrete environment and query,
with the success hypothesis discharged. -/
theorem runPipelineFlow_linear_witness :
    (runPipelineFlow okEnv "q" initState).2.2 = .ok "R" ∧
    ∃ s, s <:+ initState.pipelineLogs ∧
      (runPipelineFlow okEnv "q" initState).1.pipelineLogs.map PipelineLog.role =
        s.map PipelineLog.role ++
          [.ASR, .ASR, .VAD, .NLP, .LLM, .LLM, .TTS, .TTS] :=
  ⟨by rw [(runPipelineFlow_linear okEnv "q" initState).2.1]; rfl,
   (runPipelineFlow_linear okEnv "q" initState).2.2.2.2.2.2 "R" rfl⟩

/-- Witness for C6 at a concrete environment and state. -/
theorem handleAIInteraction_textChat_witness :
    handleAIInteraction
      ⟨fun _ _ => .ok "R", 0, fun _ => ("", ""), fun _ => ("mi", "mt")⟩
      "q" false { initState with currentMode := .TEXT_CHAT } =
      ({ initState with
          currentMode := .TEXT_CHAT
          messages := initState.messages ++
            [{ id := "mi", sender := .ai, text := "R", timestamp := "mt" }] },
       [.extCall "q" .NORMAL], .ok ()) := by
  exact handleAIInteraction_textChat _ "q" false _ "R" rfl rfl

/-! ## C9: the `@ai` trigger in text chat -/

theorem handleAIInteraction_textChat_messages (env : Env) (q : String) (b : Bool)
    (st : AppState) (hmode : st.currentMode = .TEXT_CHAT) :
    ∃ rest, (handleAIInteraction env q b st).1.messages = st.messages ++ rest := by
  unfold handleAIInteraction
  rw [if_pos hmode]
  rcases h : env.oracle q st.gameState with e | r
  · exact ⟨[], by simp⟩
  · refine ⟨[{ id := (env.msgMeta 0).1
               sender := .ai
               text := r
               timestamp := (env.msgMeta 0).2 }], ?_⟩
    simp [addChatMessage]

/-- C9: in text-chat mode, `handleSendMessage` always appends the sent text as
a `player` chat message; it makes an external call if and only if the text
contains `@ai` case-insensitively; and when it does, the query sent is the
text with every case-insensitive `@ai` occurrence removed and trimmed, with a
fixed default when that result is empty.  When there is no `@ai`, nothing but
the player message append happens. -/
theorem handleSendMessage_textChat (env : Env) (text : String) (st : AppState)
    (hmode : st.currentMode = .TEXT_CHAT) :
    (∃ rest, (handleSendMessage env text st).1.messages =
      st.messages ++ { id := (env.msgMeta 0).1
                       sender := .player
                       text := text
                       timestamp := (env.msgMeta 0).2 } :: rest) ∧
    (extCalls (handleSendMessage env text st).2.1 ≠ [] ↔ containsAtAI text = true) ∧
    (containsAtAI text = true →
      extCalls (handleSendMessage env text st).2.1 =
        [(if String.mk (trimChars (stripAtAI text.data)) = "" then "在的。"
          else String.mk (trimChars (stripAtAI text.data)), st.gameState)]) ∧
    (containsAtAI text = false →
      handleSendMessage env text st =
        (addChatMessage .player text (env.msgMeta 0) st, [], .ok ())) := by
  unfold handleSendMessage
  rw [if_pos hmode]
  by_cases hc : containsAtAI text
  · rw [if_pos hc]
    have hext := extCalls_handleAIInteraction (shiftMsg env 1) (atAIQuery text)
      false (addChatMessage .player text (env.msgMeta 0) st)
    obtain ⟨rest, hrest⟩ := handleAIInteraction_textChat_messages (shiftMsg env 1)
      (atAIQuery text) false (addChatMessage .player text (env.msgMeta 0) st)
      (by simp [hmode])
    refine ⟨⟨rest, ?_⟩, ?_, ?_, ?_⟩
    · rw [hrest]
      simp [addChatMessage]
    · simp [hext, hc]
    · intro _
      rw [hext]
      simp [atAIQuery]
    · intro hfalse
      rw [hc] at hfalse
      cases hfalse
  · rw [if_neg hc]
    refine ⟨⟨[], by simp [addChatMessage]⟩, ?_, ?_, fun _ => rfl⟩
    · simp [extCalls]
      simpa using hc
    · intro htrue
      cases hc htrue

/-- Witness for C9: a concrete `@AI`-tagged message in text-chat mode triggers
exactly one external call carrying the stripped, trimmed query. -/
theorem handleSendMessage_textChat_witness :
    extCalls (handleSendMessage okEnv "@AI hello"
        { initState with currentMode := .TEXT_CHAT }).2.1 =
      [("hello", GameState.NORMAL)] := by
  have h := (handleSendMessage_textChat okEnv "@AI hello"
    { initState with currentMode := .TEXT_CHAT } rfl).2.2.1 (by decide)
  exact h.trans (by decide)

/-! ## C5: the barge-in interrupt -/

/-- C5: when duplex mode is active and the AI is speaking, `simulateInterrupt`
clears the pending speech timeout, sets `isSpeaking` to false and `response`
to null (leaving the rest of `aiState` and all other state unchanged), appends
a USER_ACTION and a SYSTEM log entry, and schedules the follow-up interaction
after 1000ms; it performs no external call and cancels nothing but the speech
timeout.  When duplex mode is inactive or the AI is not speaking, it changes
nothing and emits nothing. -/
theorem simulateInterrupt_spec (env : Env) (st : AppState) :
    (st.isDuplexActive = true → st.aiState.isSpeaking = true →
      (simulateInterrupt env st).1.aiState =
        { st.aiState with isSpeaking := false, response := none } ∧
      (simulateInterrupt env st).1.speechTimeoutPending = false ∧
      (simulateInterrupt env st).1.messages = st.messages ∧
      (simulateInterrupt env st).1.currentMode = st.currentMode ∧
      (simulateInterrupt env st).1.gameState = st.gameState ∧
      (simulateInterrupt env st).1.isDuplexActive = st.isDuplexActive ∧
      (simulateInterrupt env st).1.duplexScenarioIdx = st.duplexScenarioIdx ∧
      (∃ s, s <:+ st.pipelineLogs ∧
        (simulateInterrupt env st).1.pipelineLogs.map PipelineLog.role =
          s.map PipelineLog.role ++ [.USER_ACTION, .SYSTEM]) ∧
      Event.setTimeoutEv 1000 ∈ (simulateInterrupt env st).2 ∧
      extCalls (simulateInterrupt env st).2 = []) ∧
    (¬ (st.isDuplexActive = true ∧ st.aiState.isSpeaking = true) →
      simulateInterrupt env st = (st, [])) := by
  constructor
  · intro h1 h2
    obtain ⟨s, hs, heq⟩ := applyLogAdds_shape
      [⟨.USER_ACTION, "!!! 用户实时抢占打断 (Barge-in Detected) !!!", env.logMeta 0⟩,
       ⟨.SYSTEM, "立即执行中断协议：停止当前音频播报", env.logMeta 1⟩] st (by simp)
    have hlogs : (simulateInterrupt env st).1.pipelineLogs =
        (applyLogAdds
          [⟨.USER_ACTION, "!!! 用户实时抢占打断 (Barge-in Detected) !!!", env.logMeta 0⟩,
           ⟨.SYSTEM, "立即执行中断协议：停止当前音频播报", env.logMeta 1⟩] st).pipelineLogs := by
      simp [simulateInterrupt, h1, h2, applyLogAdds, addPipelineLog]
    refine ⟨?_, ?_, ?_, ?_, ?_, ?_, ?_, ⟨s, hs, ?_⟩, ?_, ?_⟩
    · simp [simulateInterrupt, h1, h2]
    · simp [simulateInterrupt, h1, h2]
    · simp [simulateInterrupt, h1, h2]
    · simp [simulateInterrupt, h1, h2]
    · simp [simulateInterrupt, h1, h2]
    · simp [simulateInterrupt, h1, h2]
    · simp [simulateInterrupt, h1, h2]
    · rw [hlogs, heq]
      simp [LogSpec.entry]
    · simp [simulateInterrupt, h1, h2]
    · simp [simulateInterrupt, h1, h2, extCalls]
  · intro h
    simp [simulateInterrupt, h]

/-- A concrete state with duplex active and the AI speaking. -/
def interruptSt : AppState :=
  { initState with
    isDuplexActive := true
    aiState := { initialAiState with isSpeaking := true } }

/-- Witness for C5: the interrupt fires at a speaking duplex state and is a
no-op at the initial state. -/
theorem simulateInterrupt_spec_witness :
    (simulateInterrupt errEnv interruptSt).1.aiState =
      { interruptSt.aiState with isSpeaking := false, response := none } ∧
    simulateInterrupt errEnv initState = (initState, []) :=
  ⟨((simulateInterrupt_spec errEnv interruptSt).1 rfl rfl).1,
   (simulateInterrupt_spec errEnv initState).2 (by decide)⟩

/-! ## C7: the duplex scenario round robin -/

theorem selectedScenario_eq_get (scenarios : List Scenario) (idx : Nat)
    (h : 0 < scenarios.length) :
    selectedScenario scenarios idx =
      scenarios.get ⟨idx % scenarios.length, Nat.mod_lt _ h⟩ := by
  simp [selectedScenario, List.getD_eq_getElem?_getD, List.getElem?_eq_getElem
    (Nat.mod_lt idx h)]

@[simp] theorem runScenario_duplexScenarioIdx (env : Env)
    (scenarios : List Scenario) (st : AppState) :
    (runScenario env scenarios st).1.duplexScenarioIdx = st.duplexScenarioIdx + 1 := by
  simp [runScenario]

/-- C7: each pass of the duplex scenario loop uses the scenario at the current
index modulo the list length, increments the index by exactly one, and
reschedules itself (8000ms timer), so after `n` passes the index is the
initial index plus `n` and the scenario the next pass will use is
`scenarios[(initial + n) % length]`. -/
theorem duplexScenario_round_robin (env : Env) (scenarios : List Scenario)
    (st : AppState) (hne : 0 < scenarios.length) :
    (runScenario env scenarios st).1.duplexScenarioIdx = st.duplexScenarioIdx + 1 ∧
    (runScenario env scenarios st).2.getLast? = some (.setTimeoutEv 8000) ∧
    ∀ n, ((fun s => (runScenario env scenarios s).1)^[n] st).duplexScenarioIdx =
        st.duplexScenarioIdx + n ∧
      selectedScenario scenarios
          ((fun s => (runScenario env scenarios s).1)^[n] st).duplexScenarioIdx =
        scenarios.get ⟨(st.duplexScenarioIdx + n) % scenarios.length, Nat.mod_lt _ hne⟩ := by
  have hidx : ∀ n, ((fun s => (runScenario env scenarios s).1)^[n] st).duplexScenarioIdx =
      st.duplexScenarioIdx + n := by
    intro n
    induction n with
    | zero => simp
    | succ k ih =>
      rw [Function.iterate_succ_apply']
      simp [ih]
      omega
  refine ⟨by simp, rfl, fun n => ⟨hidx n, ?_⟩⟩
  rw [hidx n, selectedScenario_eq_get scenarios _ hne]

/-- A concrete two-scenario list. -/
def demoScenarios : List Scenario :=
  [⟨"t1", "a1", "u1", "r1"⟩, ⟨"t2", "a2", "u2", "r2"⟩]

/-- Witness for C7: after three passes over a two-element scenario list the
index is 3. -/
theorem duplexScenario_round_robin_witness :
    ((fun s => (runScenario okEnv demoScenarios s).1)^[3] initState).duplexScenarioIdx = 3 := by
  have h := (duplexScenario_round_robin okEnv demoScenarios initState (by decide)).2.2 3
  exact h.1.trans rfl

/-! ## C2: game-state (non-)interference -/

theorem extQueries_eq_map (evs : List Event) :
    extQueries evs = (extCalls evs).map Prod.fst := by
  induction evs with
  | nil => rfl
  | cons e rest ih =>
    cases e <;> simp [extQueries, extCalls, List.filterMap_cons] at ih ⊢ <;>
      exact ih

/-- Agreement of two application states on everything except the stored
game-state value. -/
def ObsEq (s1 s2 : AppState) : Prop :=
  s1.currentMode = s2.currentMode ∧ s1.messages = s2.messages ∧
  s1.pipelineLogs = s2.pipelineLogs ∧ s1.isDuplexActive = s2.isDuplexActive ∧
  s1.aiState = s2.aiState ∧ s1.speechTimeoutPending = s2.speechTimeoutPending ∧
  s1.timerIntervalActive = s2.timerIntervalActive ∧
  s1.duplexScenarioIdx = s2.duplexScenarioIdx

set_option maxHeartbeats 1000000 in
theorem runPipelineFlow_gs_congr (env : Env) (q : String) (st : AppState)
    (g1 g2 : GameState) (hor : ∀ s, env.oracle s g1 = env.oracle s g2) :
    ObsEq (runPipelineFlow env q { st with gameState := g1 }).1
        (runPipelineFlow env q { st with gameState := g2 }).1 ∧
    (runPipelineFlow env q { st with gameState := g1 }).2.2 =
      (runPipelineFlow env q { st with gameState := g2 }).2.2 := by
  unfold runPipelineFlow
  simp only [addPipelineLog_gameState, hor q]
  rcases h : env.oracle q g2 with e | r <;>
    simp [h, ObsEq, addPipelineLog]

/-- C2 (amended): two runs of `handleAIInteraction` that differ only in the
game-state value forward the same query text to the external call; the
game-state tag itself is forwarded alongside, so if the external endpoint
answers independently of the tag, the two runs agree on all state except the
stored game-state value and return the same result. -/
theorem handleAIInteraction_gameState_noninterference (env : Env) (q : String)
    (b : Bool) (st : AppState) (g1 g2 : GameState) :
    extQueries (handleAIInteraction env q b { st with gameState := g1 }).2.1 =
      extQueries (handleAIInteraction env q b { st with gameState := g2 }).2.1 ∧
    ((∀ s, env.oracle s g1 = env.oracle s g2) →
      ObsEq (handleAIInteraction env q b { st with gameState := g1 }).1
          (handleAIInteraction env q b { st with gameState := g2 }).1 ∧
      (handleAIInteraction env q b { st with gameState := g1 }).2.2 =
        (handleAIInteraction env q b { st with gameState := g2 }).2.2) := by
  constructor
  · rw [extQueries_eq_map, extQueries_eq_map,
      extCalls_handleAIInteraction, extCalls_handleAIInteraction]
    simp
  · intro hor
    unfold handleAIInteraction
    by_cases hm : st.currentMode = .TEXT_CHAT
    · rcases h : env.oracle q g2 with e | r <;>
        simp [hm, hor q, h, ObsEq, addChatMessage]
    · by_cases hv : st.currentMode = .SINGLE_TURN_VOICE ∨
          st.currentMode = .MULTI_TURN_VOICE ∨ st.currentMode = .FULL_DUPLEX
      · have hc := runPipelineFlow_gs_congr env q st g1 g2 hor
        rcases hr1 : runPipelineFlow env q { st with gameState := g1 } with ⟨s1, ev1, x1⟩
        rcases hr2 : runPipelineFlow env q { st with gameState := g2 } with ⟨s2, ev2, x2⟩
        rw [hr1, hr2] at hc
        obtain ⟨hobs, hxx⟩ := hc
        simp at hxx
        obtain ⟨hcm, hms, hlg, hdp, hai, hsp, hti, hix⟩ := hobs
        subst hxx
        simp at hcm hms hlg hdp hai hsp hti hix
        cases x1 <;>
          simp [hm, hv, hr1, hr2, ObsEq, hcm, hms, hlg, hdp, hai, hsp, hti, hix]
      · rcases h : env.oracle q g2 with e | r <;>
          simp [hm, hv, hor q, h, ObsEq]

/-- An environment whose replies depend on the game state. -/
def gsEnv : Env :=
  ⟨fun _ g => if g = .NORMAL then .ok "A" else .ok "B", 0,
   fun _ => ("", ""), fun _ => ("", "")⟩

/-- C2 counterexample: the game-state tag is forwarded to the external call,
so with an endpoint whose replies depend on it, two runs differing only in the
game-state value show different replies — the claim's "the replies shown do
not depend on the game-state value" fails. -/
theorem gameState_noninterference_counterexample :
    ¬ ((handleAIInteraction gsEnv "q" false
          { initState with currentMode := .TEXT_CHAT, gameState := .NORMAL }).1.messages =
        (handleAIInteraction gsEnv "q" false
          { initState with currentMode := .TEXT_CHAT, gameState := .DEAD }).1.messages) := by
  decide

/-- Witness for C2's amended theorem at a game-state-blind environment. -/
theorem handleAIInteraction_gameState_noninterference_witness :
    ObsEq (handleAIInteraction okEnv "q" false
        { initState with gameState := .DEAD }).1
      (handleAIInteraction okEnv "q" false
        { initState with gameState := .SHOPPING }).1 :=
  ((handleAIInteraction_gameState_noninterference okEnv "q" false initState
    .DEAD .SHOPPING).2 (fun _ => rfl)).1

/-! ## C10: the 30s listening-window timer -/

theorem handleAIInteraction_timer (env : Env) (q : String) (b : Bool)
    (st : AppState) :
    (handleAIInteraction env q b st).1.aiState.timer = st.aiState.timer := by
  unfold handleAIInteraction
  split
  · rcases h : env.oracle q st.gameState with e | r <;> simp [h]
  · split
    · rcases hr : runPipelineFlow env q st with ⟨s1, ev1, x1⟩
      have hai := (runPipelineFlow_proj env q st).2.1
      rw [hr] at hai
      simp at hai
      cases x1 <;> simp [hai]
    · rcases h : env.oracle q st.gameState with e | r <;> simp [h]

theorem handleSendMessage_timer (env : Env) (text : String) (st : AppState) :
    (handleSendMessage env text st).1.aiState.timer = st.aiState.timer := by
  unfold handleSendMessage
  split
  · split
    · rw [handleAIInteraction_timer]
      simp
    · simp
  · rw [handleAIInteraction_timer]

theorem handleVoiceTrigger_timer (env : Env) (active : Bool) (st : AppState) :
    (handleVoiceTrigger env active st).1.aiState.timer = st.aiState.timer := by
  unfold handleVoiceTrigger
  split
  · split
    · simp
    · rw [handleAIInteraction_timer]
      simp
  · split
    · split
      · rw [handleAIInteraction_timer]
        simp
      · simp
    · rfl

theorem toggleDuplex_timer (env : Env) (st : AppState) :
    (toggleDuplex env st).aiState.timer = st.aiState.timer := by
  unfold toggleDuplex
  by_cases h : st.isDuplexActive <;> simp [h]

theorem simulateInterrupt_timer (env : Env) (st : AppState) :
    (simulateInterrupt env st).1.aiState.timer = st.aiState.timer := by
  unfold simulateInterrupt
  split <;> simp

theorem interruptFollowup_timer (env : Env) (st : AppState) :
    (interruptFollowup env st).1.aiState.timer = st.aiState.timer := by
  unfold interruptFollowup
  rw [handleAIInteraction_timer]
  simp

theorem speechTimeoutFires_timer (env : Env) (b : Bool) (st : AppState) :
    (speechTimeoutFires env b st).aiState.timer = st.aiState.timer := by
  unfold speechTimeoutFires
  split <;> simp

theorem runScenario_timer (env : Env) (scenarios : List Scenario) (st : AppState) :
    (runScenario env scenarios st).1.aiState.timer = st.aiState.timer := by
  simp [runScenario]

/-- The countdown-timer bounds of the 30s listening window. -/
def timerInv (st : AppState) : Prop :=
  0 ≤ st.aiState.timer ∧ st.aiState.timer ≤ 30

theorem step_timerInv {s1 s2 : AppState} (h : Step s1 s2) (hi : timerInv s1) :
    timerInv s2 := by
  cases h with
  | modeChange m st => simp [timerInv, onModeChange]
  | gameStateChange g st => exact hi
  | sendMessage env text st =>
    unfold timerInv
    rw [handleSendMessage_timer]
    exact hi
  | interaction env q b st =>
    unfold timerInv
    rw [handleAIInteraction_timer]
    exact hi
  | voiceTrigger env active st =>
    unfold timerInv
    rw [handleVoiceTrigger_timer]
    exact hi
  | duplexToggle env st =>
    unfold timerInv
    rw [toggleDuplex_timer]
    exact hi
  | interrupt env st =>
    unfold timerInv
    rw [simulateInterrupt_timer]
    exact hi
  | interruptCb env st =>
    unfold timerInv
    rw [interruptFollowup_timer]
    exact hi
  | speechCb env b st =>
    unfold timerInv
    rw [speechTimeoutFires_timer]
    exact hi
  | windowStart st => simp [timerInv, listenStart]
  | windowTick env st =>
    unfold timerInv listenTick at *
    split
    · simp
    · obtain ⟨h0, h30⟩ := hi
      constructor <;> simp <;> omega
  | scenarioRun env scenarios st =>
    unfold timerInv
    rw [runScenario_timer]
    exact hi

theorem reachable_timerInv (st : AppState) (h : Reachable st) : timerInv st := by
  induction h with
  | refl => exact ⟨le_refl 0, by norm_num [initState, initialAiState]⟩
  | tail hs hstep ih => exact step_timerInv hstep ih

/-- C10: the 30s listening window starts its countdown at 30, each tick
decreases the timer by exactly one while it is above 1, the closing tick
(timer at most 1) turns listening off and sets the timer to 0, and in every
reachable application state the timer stays between 0 and 30. -/
theorem listen_window_timer :
    (∀ st, (listenStart st).aiState.timer = 30) ∧
    (∀ env st, 1 < st.aiState.timer →
      (listenTick env st).aiState.timer = st.aiState.timer - 1 ∧
      (listenTick env st).aiState.isListening = st.aiState.isListening) ∧
    (∀ env st, st.aiState.timer ≤ 1 →
      (listenTick env st).aiState.isListening = false ∧
      (listenTick env st).aiState.timer = 0) ∧
    (∀ st, Reachable st → 0 ≤ st.aiState.timer ∧ st.aiState.timer ≤ 30) := by
  refine ⟨fun st => rfl, fun env st h => ?_, fun env st h => ?_,
    fun st h => reachable_timerInv st h⟩
  · unfold listenTick
    rw [if_neg (by omega)]
    exact ⟨rfl, rfl⟩
  · unfold listenTick
    rw [if_pos h]
    simp

/-- Witness for C10: the window at the initial state starts at 30, one tick
brings it to 29, the closing tick zeroes it, and the initial state satisfies
the bounds. -/
theorem listen_window_timer_witness :
    (listenStart initState).aiState.timer = 30 ∧
    (listenTick errEnv (listenStart initState)).aiState.timer = 29 ∧
    (listenTick errEnv initState).aiState.timer = 0 ∧
    (0 ≤ initState.aiState.timer ∧ initState.aiState.timer ≤ 30) :=
  ⟨listen_window_timer.1 initState,
   by
    rw [(listen_window_timer.2.1 errEnv (listenStart initState) (by decide)).1]
    decide,
   (listen_window_timer.2.2.1 errEnv initState (by decide)).2,
   listen_window_timer.2.2.2 initState Relation.ReflTransGen.refl⟩

end MobaDemo
